import Mathlib

/-
Verification of the resizable presentation surface manager of the
szumi-the-rust-vulkan-renderer repository.

The development shallowly embeds the size-dependent renderer state
(`RendererCore` in src/renderer_core.rs), the per-frame driver loop
(`Renderer` in src/renderer.rs) and the compute-dispatch demo
(src/main.rs).  External driver objects (devices, queues, GPU memory)
are modelled by the values the repository's code reads from them:
a `VulkanConnection` carries the capability data the code consumes,
and driver responses (swapchain image lists, flush results, acquire
results) are explicit inputs of the modelled operations.  Rust panics
(`unwrap`/`expect`/`panic!` in the source) are modelled as `Option.none`
or `Except.error` results carrying the panic message.

All f32 values the repository ever stores in the modelled state are
integer-valued (they arise from `u32 as f32` casts or integer literals),
so they are represented by the integers they denote; the rounding of
`u32 as f32` (IEEE 754 binary32, round to nearest, ties to even) is made
explicit by `u32ToF32`.  The clear-colour literals 0.1 and 1.0 are
represented by the rationals 1/10 and 1.
-/

namespace Szumi

/-- Pixel dimensions, the `[u32; 2]` pairs of the source. -/
abbrev Dimensions := Nat × Nat

/-- Identifier for a surface colour format (`vulkano::format::Format`). -/
abbrev Format := Nat

/-- Identifier for a composite-alpha mode (`vulkano::swapchain::CompositeAlpha`). -/
abbrev CompositeAlpha := Nat

/-- Image usage flags; the repository only ever requests `COLOR_ATTACHMENT`
for swapchain images. -/
inductive ImageUsage where
  | colorAttachment
deriving DecidableEq

/-- A driver-owned presentable image.  The repository never inspects an
image's contents, so the model identifies images by an abstract id. -/
structure Image where
  id : Nat
deriving DecidableEq

/-- Rounding of `num / den` to the nearest integer with ties broken to the
even quotient, the IEEE 754 default rounding used by Rust `as f32`. -/
def roundHalfEven (num den : Nat) : Nat :=
  let q := num / den
  let r := num % den
  if 2 * r < den then q
  else if den < 2 * r then q + 1
  else if q % 2 = 0 then q else q + 1

/-- Spacing of adjacent IEEE 754 binary32 values on the binade that contains
the natural number `n`, for `n < 2 ^ 32` (binary32 has a 24-bit significand,
so u32 values up to `2 ^ 24` are exact and larger binades round to multiples
of increasing powers of two). -/
def f32step (n : Nat) : Nat :=
  if n ≤ 2 ^ 24 then 1
  else if n ≤ 2 ^ 25 then 2
  else if n ≤ 2 ^ 26 then 4
  else if n ≤ 2 ^ 27 then 8
  else if n ≤ 2 ^ 28 then 16
  else if n ≤ 2 ^ 29 then 32
  else if n ≤ 2 ^ 30 then 64
  else if n ≤ 2 ^ 31 then 128
  else 256

/-- The integer denoted by the binary32 value produced by Rust `n as f32`
for a `u32` value `n` (the result of that cast is always integer-valued). -/
def u32ToF32 (n : Nat) : Nat :=
  roundHalfEven n (f32step n) * f32step n

/-- `vulkano::pipeline::graphics::viewport::Viewport`.  The repository only
ever stores integer-valued f32 coordinates, represented here exactly. -/
structure Viewport where
  offset : Nat × Nat
  extent : Nat × Nat
  depth_range : Nat × Nat
deriving DecidableEq

/-- Attachment load operation of the single render pass. -/
inductive LoadOp where
  | clear
deriving DecidableEq

/-- Attachment store operation of the single render pass. -/
inductive StoreOp where
  | store
deriving DecidableEq

/-- The single-subpass render pass built by `RendererCore::get_render_pass`:
one colour attachment in the swapchain's format, 1 sample, cleared on load
and stored after the pass. -/
structure RenderPass where
  format : Format
  samples : Nat
  load_op : LoadOp
  store_op : StoreOp
deriving DecidableEq

/-- A default image view (`ImageView::new_default`). -/
structure ImageView where
  image : Image
deriving DecidableEq

/-- A framebuffer wrapping one attachment view for a render pass. -/
structure Framebuffer where
  render_pass : RenderPass
  attachments : List ImageView
deriving DecidableEq

/-- The vertex record of src/renderer_core/buffer_structs.rs: a 2D `i32`
position and an 8-bit RGB colour. -/
structure MyVertex where
  position : Int × Int
  color : Nat × Nat × Nat
deriving DecidableEq

/-- A 4x4 matrix as the repository constructs it: either `Matrix4::identity()`
or `Orthographic3::new(left, right, bottom, top, znear, zfar)` homogenised.
The numeric matrix entries are computed by the external nalgebra library, so
the model records the constructor and its integer-valued arguments. -/
inductive Mat4 where
  | identity
  | orthographic (left right bottom top znear zfar : Int)
deriving DecidableEq

/-- The MVP uniform record of src/renderer_core/buffer_structs.rs. -/
structure MVP where
  model : Mat4
  view : Mat4
  proj : Mat4
deriving DecidableEq

/-- A persistent descriptor set holding the MVP uniform buffer at binding 0. -/
structure PersistentDescriptorSet where
  binding : Nat
  buffer : MVP
deriving DecidableEq

/-- The graphics pipeline state the repository chooses itself: the shader
entry points and the viewport (all remaining pipeline state is the wrapped
API's defaults). -/
structure GraphicsPipeline where
  vs_entry : String
  fs_entry : String
  render_pass : RenderPass
  viewport : Viewport
deriving DecidableEq

/-- The swapchain creation parameters set by `RendererCore::create_swapchain`
(all other fields keep the wrapped API's defaults). -/
structure SwapchainCreateInfo where
  min_image_count : Nat
  image_format : Format
  image_extent : Dimensions
  image_usage : ImageUsage
  composite_alpha : CompositeAlpha
deriving DecidableEq

/-- A swapchain; `Swapchain::create_info()` returns the info it was created
with, which `RendererCore::recreate` inherits. -/
structure Swapchain where
  create_info : SwapchainCreateInfo
deriving DecidableEq

/-- The process-lifetime connection (src/vulkan_api_connection.rs), reduced to
the capability data `RendererCore` reads from it: the surface capabilities'
minimum image count, the supported composite-alpha modes in iteration order,
and the supported surface colour formats in reported order. -/
structure VulkanConnection where
  min_image_count : Nat
  supported_composite_alpha : List CompositeAlpha
  surface_formats : List Format
deriving DecidableEq

/-- Clear values passed to `begin_render_pass`: one optional RGBA colour per
attachment. -/
abbrev ClearValue := List (Option (ℚ × ℚ × ℚ × ℚ))

/-- One recorded command of a primary command buffer, as issued by
`RendererCore::get_command_buffers`. -/
inductive Command where
  | beginRenderPass (clear_values : ClearValue) (framebuffer : Framebuffer)
  | bindPipelineGraphics (pipeline : GraphicsPipeline)
  | bindDescriptorSets (first_set : Nat) (sets : List PersistentDescriptorSet)
  | bindVertexBuffers (binding : Nat) (vertex_buffer : List MyVertex)
  | draw (vertices instances first_vertex first_instance : Nat)
  | endRenderPass
deriving DecidableEq

/-- A pre-recorded command sequence. -/
abbrev CommandBuffer := List Command

/-- `RendererCore::get_render_pass`: single pass, colour format taken from
the swapchain, 1 sample, clear on load, store on store. -/
def get_render_pass (swapchain : Swapchain) : RenderPass :=
  { format := swapchain.create_info.image_format
    samples := 1
    load_op := .clear
    store_op := .store }

/-- `RendererCore::get_framebuffers`: one framebuffer per image, each
wrapping a default view of that image. -/
def get_framebuffers (images : List Image) (render_pass : RenderPass) :
    List Framebuffer :=
  images.map (fun image => { render_pass := render_pass, attachments := [{ image := image }] })

/-- `RendererCore::get_pipeline`: both shader entry points are "main"; the
viewport is the one passed in; remaining state is API defaults. -/
def get_pipeline (render_pass : RenderPass) (viewport : Viewport) : GraphicsPipeline :=
  { vs_entry := "main", fs_entry := "main", render_pass := render_pass, viewport := viewport }

/-- `RendererCore::get_mvp_buffer`: identity model and view matrices and an
orthographic projection `Orthographic3::new(0.0, extent[1], 0.0, extent[1],
-1.0, 1.0)` (the source uses the viewport's second extent component for both
the right and the top plane). -/
def get_mvp_buffer (viewport : Viewport) : MVP :=
  { model := .identity
    view := .identity
    proj := .orthographic 0 (viewport.extent.2 : Int) 0 (viewport.extent.2 : Int) (-1) 1 }

/-- `RendererCore::get_mvp_descriptor_set`: the uniform buffer written at
binding 0 of descriptor set layout 0. -/
def get_mvp_descriptor_set (buffer : MVP) : PersistentDescriptorSet :=
  { binding := 0, buffer := buffer }

/-- `RendererCore::get_command_buffers`: one command buffer per framebuffer;
each begins the render pass with the fixed clear colour, binds the graphics
pipeline, binds the descriptor sets at first set 0, binds the vertex buffer
at binding 0, draws every vertex of the vertex buffer as one instance, and
ends the render pass. -/
def get_command_buffers (pipeline : GraphicsPipeline) (framebuffers : List Framebuffer)
    (vertex_buffer : List MyVertex) (descriptor_sets : List PersistentDescriptorSet) :
    List CommandBuffer :=
  framebuffers.map (fun framebuffer =>
    [Command.beginRenderPass [some (1/10, 1/10, 1/10, 1)] framebuffer,
     Command.bindPipelineGraphics pipeline,
     Command.bindDescriptorSets 0 descriptor_sets,
     Command.bindVertexBuffers 0 vertex_buffer,
     Command.draw vertex_buffer.length 1 0 0,
     Command.endRenderPass])

/-- `RendererCore::create_swapchain`: requests the connection's minimum image
count plus one, the first supported surface colour format, the given extent,
colour-attachment usage and the first supported composite-alpha mode.  The
source unwraps the first element of each capability list (a panic, modelled
as `none`, if a list is empty); `driver_images` is the image list the driver
returns from `Swapchain::new`. -/
def create_swapchain (vapi : VulkanConnection) (dimensions : Dimensions)
    (driver_images : List Image) : Option (Swapchain × List Image) :=
  match vapi.supported_composite_alpha.head?, vapi.surface_formats.head? with
  | some composite_alpha, some image_format =>
      some ({ create_info :=
                { min_image_count := vapi.min_image_count + 1
                  image_format := image_format
                  image_extent := dimensions
                  image_usage := .colorAttachment
                  composite_alpha := composite_alpha } },
            driver_images)
  | _, _ => none

/-- The size-dependent renderer state (`RendererCore` in
src/renderer_core.rs).  Allocator handles are omitted: the repository never
reads anything from them. -/
structure RendererCore where
  vapi : VulkanConnection
  images : List Image
  viewport : Viewport
  render_pass : RenderPass
  framebuffers : List Framebuffer
  pipeline : GraphicsPipeline
  command_buffers : List CommandBuffer
  swapchain : Swapchain
  vertex_buffer : List MyVertex
deriving DecidableEq

/-- The fixed 3-vertex triangle buffer built in `RendererCore::new`. -/
def triangle_vertices : List MyVertex :=
  [{ position := (100, 100), color := (255, 0, 35) },
   { position := (200, 100), color := (0, 255, 50) },
   { position := (150, 200), color := (0, 100, 255) }]

/-- `RendererCore::new`: builds the swapchain sized to `dimensions`, the
render pass, framebuffers, a viewport whose extent is the literal
`[1024.0, 1024.0]` of the source (not `dimensions`), the pipeline, the
triangle vertex buffer, the MVP descriptor set and the per-framebuffer
command buffers.  `driver_images` is the driver's response to swapchain
creation; `none` models the panic on an empty capability list. -/
def RendererCore.new (vapi : VulkanConnection) (dimensions : Dimensions)
    (driver_images : List Image) : Option RendererCore :=
  match create_swapchain vapi dimensions driver_images with
  | none => none
  | some (swapchain, images) =>
    let render_pass := get_render_pass swapchain
    let framebuffers := get_framebuffers images render_pass
    let viewport : Viewport := { offset := (0, 0), extent := (1024, 1024), depth_range := (0, 1) }
    let pipeline := get_pipeline render_pass viewport
    let vertex_buffer := triangle_vertices
    let mvp_buffer := get_mvp_buffer viewport
    let mvp_set := get_mvp_descriptor_set mvp_buffer
    some { vapi := vapi
           images := images
           viewport := viewport
           render_pass := render_pass
           framebuffers := framebuffers
           pipeline := pipeline
           command_buffers := get_command_buffers pipeline framebuffers vertex_buffer [mvp_set]
           swapchain := swapchain
           vertex_buffer := vertex_buffer }

/-- `RendererCore::recreate`: asks the driver to recreate the swapchain with
the new extent and all other parameters inherited from the previous chain's
create info; on rejection (`driver = none`) the source's
`.expect("failed to recreate swapchain: \x7be\x7d")` aborts the process,
modelled as an `Except.error` carrying that message — a single driver request
is issued, there is no retry.  On success it rebuilds framebuffers from the
new images and the old render pass, sets the viewport extent to the `as f32`
casts of the dimensions, rebuilds the pipeline from the updated viewport,
recomputes the MVP descriptor set and re-records all command buffers. -/
def RendererCore.recreate (core : RendererCore) (dimensions : Dimensions)
    (driver : Option (List Image)) : Except String RendererCore :=
  match driver with
  | none => .error "failed to recreate swapchain: \x7be\x7d"
  | some new_images =>
    let new_swapchain : Swapchain :=
      { create_info := { core.swapchain.create_info with image_extent := dimensions } }
    let framebuffers := get_framebuffers new_images core.render_pass
    let viewport : Viewport :=
      { core.viewport with extent := (u32ToF32 dimensions.1, u32ToF32 dimensions.2) }
    let pipeline := get_pipeline core.render_pass viewport
    let mvp_buffer := get_mvp_buffer viewport
    let mvp_set := get_mvp_descriptor_set mvp_buffer
    .ok { core with
          swapchain := new_swapchain
          images := new_images
          framebuffers := framebuffers
          viewport := viewport
          pipeline := pipeline
          command_buffers := get_command_buffers pipeline framebuffers core.vertex_buffer [mvp_set] }

/-- A completion marker (`Box<dyn GpuFuture>` retained as
`last_frame_future`), identified abstractly. -/
structure FrameFuture where
  id : Nat
deriving DecidableEq

/-- The per-frame driver (`Renderer` in src/renderer.rs): the connection, the
size-dependent core and the optional retained completion marker. -/
structure Renderer where
  vapi : VulkanConnection
  core : RendererCore
  last_frame_future : Option FrameFuture
deriving DecidableEq

/-- Number of in-flight completion markers a `Renderer` retains: the
`last_frame_future` field is a single `Option`, so this is 0 or 1. -/
def markerCount (r : Renderer) : Nat :=
  match r.last_frame_future with
  | none => 0
  | some _ => 1

/-- `Renderer::recreate_core`: recreates the core with the window's current
inner size (passed here as `window_size`). -/
def Renderer.recreate_core (r : Renderer) (window_size : Dimensions)
    (driver : Option (List Image)) : Except String Renderer :=
  match r.core.recreate window_size driver with
  | .ok core => .ok { r with core := core }
  | .error e => .error e

/-- Result of `swapchain::acquire_next_image`: on success an image index and
the suboptimal flag; otherwise an acquisition error (for example the chain
being out of date). -/
inductive AcquireResult where
  | ok (image_i : Nat) (suboptimal : Bool)
  | err (e : String)
deriving DecidableEq

/-- Observable steps of one acquire-and-present cycle, in the order the
source issues them. -/
inductive DrawEvent where
  | acquire
  | recreateCore (dims : Dimensions)
  | executeCommandBuffer (image_i : Nat)
  | present (image_i : Nat)
  | flushSubmit
  | logError (msg : String)
  | cleanupFinished
  | retainMarker
deriving DecidableEq

/-- Outcome of one acquire-and-present cycle: the next renderer state, or a
process-terminating panic with its message. -/
inductive DrawOutcome where
  | ok (r : Renderer)
  | panic (msg : String)
deriving DecidableEq

/-- `Renderer::on_draw`, one acquire-and-present cycle.  Driver interactions
are explicit inputs: `acquire` is the result of `acquire_next_image`,
`driver_recreate` answers a swapchain recreation triggered by a suboptimal
acquire, and `flush` is the driver's verdict on
`then_signal_fence_and_flush` (the point at which the submission and the
queued present are issued).  The returned event list records, in source
order, what the cycle did: on an acquisition error the source panics; on a
suboptimal acquire it recreates the core with the window size and returns
without executing or presenting; otherwise it executes the pre-recorded
command buffer for the acquired index (a panic if the index is out of
bounds), queues the present, flushes, and then — only on a successful
flush, and after the submission has been issued — reclaims finished
resources of the previously retained marker (if any) and retains the new
one; a failed flush is logged and leaves the state unchanged. -/
def Renderer.on_draw (r : Renderer) (window_size : Dimensions)
    (acquire : AcquireResult) (driver_recreate : Option (List Image))
    (flush : Except String FrameFuture) : DrawOutcome × List DrawEvent :=
  match acquire with
  | .err e => (.panic ("failed to acquire next image: " ++ e), [DrawEvent.acquire])
  | .ok image_i subopt =>
    if subopt then
      match r.recreate_core window_size driver_recreate with
      | .ok r' => (.ok r', [DrawEvent.acquire, DrawEvent.recreateCore window_size])
      | .error msg => (.panic msg, [DrawEvent.acquire, DrawEvent.recreateCore window_size])
    else
      if image_i < r.core.command_buffers.length then
        match flush with
        | .ok future =>
          let cleanup :=
            if r.last_frame_future.isSome then [DrawEvent.cleanupFinished] else []
          (.ok { r with last_frame_future := some future },
           [DrawEvent.acquire, DrawEvent.executeCommandBuffer image_i,
            DrawEvent.present image_i, DrawEvent.flushSubmit]
             ++ cleanup ++ [DrawEvent.retainMarker])
        | .error e =>
          (.ok r,
           [DrawEvent.acquire, DrawEvent.executeCommandBuffer image_i,
            DrawEvent.present image_i, DrawEvent.flushSubmit,
            DrawEvent.logError ("failed to flush future: " ++ e)])
      else
        (.panic "index out of bounds", [DrawEvent.acquire])

/-- One invocation of the compute shader of src/main.rs: `buf.data[idx] *= 12`
in GLSL `uint` (32-bit wrapping) arithmetic. -/
def cs_invocation (buf : List Nat) (idx : Nat) : List Nat :=
  buf.set idx (buf.getD idx 0 * 12 % 2 ^ 32)

/-- The dispatch of src/main.rs: `[1024, 1, 1]` work groups of local size
`(64, 1, 1)`, one invocation per global id `0 .. 1024 * 64`.  Invocations
write disjoint indices, so sequencing them in id order is faithful. -/
def cs_dispatch (buf : List Nat) : List Nat :=
  (List.range (1024 * 64)).foldl cs_invocation buf

/-- The storage buffer contents of src/main.rs: `0..65536u32`. -/
def data_buffer_content : List Nat :=
  List.range 65536

/-- A small concrete connection used to instantiate theorems: minimum image
count 2, one supported composite-alpha mode, one supported surface format. -/
def conn0 : VulkanConnection :=
  { min_image_count := 2, supported_composite_alpha := [0], surface_formats := [0] }

/-- A trivial core, used only as the default of `Option.getD` below. -/
def emptyCore : RendererCore :=
  { vapi := { min_image_count := 0, supported_composite_alpha := [], surface_formats := [] }
    images := []
    viewport := { offset := (0, 0), extent := (0, 0), depth_range := (0, 1) }
    render_pass := { format := 0, samples := 1, load_op := .clear, store_op := .store }
    framebuffers := []
    pipeline := get_pipeline
      { format := 0, samples := 1, load_op := .clear, store_op := .store }
      { offset := (0, 0), extent := (0, 0), depth_range := (0, 1) }
    command_buffers := []
    swapchain := { create_info :=
      { min_image_count := 0, image_format := 0, image_extent := (0, 0)
        image_usage := .colorAttachment, composite_alpha := 0 } }
    vertex_buffer := [] }

/-- The core built by `RendererCore::new` on `conn0` with the source's
initial dimensions (1024, 1024) and a single driver image. -/
def core0 : RendererCore :=
  (RendererCore.new conn0 (1024, 1024) [⟨0⟩]).getD emptyCore

/-- The core built by `RendererCore::new` on `conn0` with initial dimensions
(800, 600) and a single driver image. -/
def core800 : RendererCore :=
  (RendererCore.new conn0 (800, 600) [⟨0⟩]).getD emptyCore

/-- The core obtained from `core0` by recreating at dimensions (2, 2). -/
def core2 : RendererCore :=
  (RendererCore.recreate core0 (2, 2) (some [⟨0⟩])).toOption.getD emptyCore

/-- A renderer over `core0` with no retained completion marker. -/
def renderer0 : Renderer :=
  { vapi := conn0, core := core0, last_frame_future := none }

/-- A renderer over `core0` that retains a completion marker from a previous
frame. -/
def renderer1 : Renderer :=
  { vapi := conn0, core := core0, last_frame_future := some ⟨0⟩ }

/-- C2 (corrected): for every `initial_dimensions`, `RendererCore::new`
builds the graphics pipeline with viewport extent exactly (1024, 1024) — the
source hardcodes the literal `[1024.0, 1024.0]` and ignores its `dimensions`
argument when building the viewport, so the extent equals
`initial_dimensions` only when those are (1024, 1024). -/
theorem C2_construct_viewport_amended (vapi : VulkanConnection) (dims : Dimensions)
    (driver_images : List Image) (c : RendererCore)
    (hnew : RendererCore.new vapi dims driver_images = some c) :
    c.pipeline.viewport.extent = (1024, 1024) := by
  cases hcs : create_swapchain vapi dims driver_images with
  | none => rw [RendererCore.new, hcs] at hnew; cases hnew
  | some p =>
    obtain ⟨sc, imgs⟩ := p
    rw [RendererCore.new, hcs] at hnew
    cases hnew
    rfl

/-- C2 witness: the amended claim instantiated at `conn0` and dimensions
(800, 600). -/
theorem C2_construct_viewport_amended_witness :
    RendererCore.new conn0 (800, 600) [⟨0⟩] = some core800 ∧
    core800.pipeline.viewport.extent = (1024, 1024) :=
  ⟨rfl, C2_construct_viewport_amended conn0 (800, 600) [⟨0⟩] core800 rfl⟩

/-- C2 counterexample: constructing at initial dimensions (800, 600) yields a
pipeline whose viewport extent is (1024, 1024), not (800, 600), refuting the
claim that the construct-time viewport extent equals `initial_dimensions`. -/
theorem C2_counterexample_viewport_hardcoded :
    RendererCore.new conn0 (800, 600) [⟨0⟩] = some core800 ∧
    core800.pipeline.viewport.extent = (1024, 1024) ∧
    core800.pipeline.viewport.extent ≠ (800, 600) := by
  refine ⟨rfl, rfl, ?_⟩
  decide

/-- C3: `RendererCore::new` creates the presentation chain sized to
`initial_dimensions`, with image format the first supported surface colour
format, composite alpha the first supported composite-alpha mode reported by
the connection, and a requested minimum image count equal to the
connection's minimum image count plus one. -/
theorem C3_construct_swapchain_parameters (vapi : VulkanConnection) (dims : Dimensions)
    (driver_images : List Image) (c : RendererCore)
    (hnew : RendererCore.new vapi dims driver_images = some c) :
    c.swapchain.create_info.image_extent = dims ∧
    vapi.surface_formats.head? = some c.swapchain.create_info.image_format ∧
    vapi.supported_composite_alpha.head? = some c.swapchain.create_info.composite_alpha ∧
    c.swapchain.create_info.min_image_count = vapi.min_image_count + 1 := by
  cases hca : vapi.supported_composite_alpha.head? with
  | none =>
    rw [RendererCore.new, create_swapchain, hca] at hnew
    cases hnew
  | some composite_alpha =>
    cases hfmt : vapi.surface_formats.head? with
    | none =>
      rw [RendererCore.new, create_swapchain, hca, hfmt] at hnew
      cases hnew
    | some image_format =>
      rw [RendererCore.new, create_swapchain, hca, hfmt] at hnew
      cases hnew
      exact ⟨rfl, rfl, rfl, rfl⟩

/-- C3 witness: the claim instantiated at `conn0` and dimensions (640, 480),
where construction succeeds. -/
theorem C3_construct_swapchain_parameters_witness :
    RendererCore.new conn0 (640, 480)
        [⟨0⟩] = some ((RendererCore.new conn0 (640, 480) [⟨0⟩]).getD emptyCore) ∧
    (((RendererCore.new conn0 (640, 480) [⟨0⟩]).getD
        emptyCore).swapchain.create_info.image_extent = (640, 480) ∧
      conn0.surface_formats.head? = some (((RendererCore.new conn0 (640, 480) [⟨0⟩]).getD
        emptyCore).swapchain.create_info.image_format) ∧
      conn0.supported_composite_alpha.head? =
        some (((RendererCore.new conn0 (640, 480) [⟨0⟩]).getD
          emptyCore).swapchain.create_info.composite_alpha) ∧
      (((RendererCore.new conn0 (640, 480) [⟨0⟩]).getD
        emptyCore).swapchain.create_info.min_image_count = conn0.min_image_count + 1)) :=
  ⟨rfl, C3_construct_swapchain_parameters conn0 (640, 480) [⟨0⟩] _ rfl⟩

/-- C5: if the driver rejects presentation-chain recreation,
`RendererCore::recreate` terminates the process with the source's
`.expect` message; the model issues exactly one driver request, so no retry
is performed. -/
theorem C5_recreate_driver_rejection_fatal (core : RendererCore) (dims : Dimensions) :
    core.recreate dims none = .error "failed to recreate swapchain: \x7be\x7d" :=
  rfl

/-- C7: `RendererCore::new` records exactly one command sequence per
framebuffer, and each sequence is, in this order: begin render pass, bind
the graphics pipeline, bind the descriptor sets, bind the vertex buffer,
draw all vertices of the vertex buffer as a single instance, end render
pass. -/
theorem C7_command_buffer_structure (vapi : VulkanConnection) (dims : Dimensions)
    (driver_images : List Image) (c : RendererCore)
    (hnew : RendererCore.new vapi dims driver_images = some c) :
    c.command_buffers.length = c.framebuffers.length ∧
    c.command_buffers = c.framebuffers.map (fun framebuffer =>
      [Command.beginRenderPass [some (1/10, 1/10, 1/10, 1)] framebuffer,
       Command.bindPipelineGraphics c.pipeline,
       Command.bindDescriptorSets 0 [get_mvp_descriptor_set (get_mvp_buffer c.viewport)],
       Command.bindVertexBuffers 0 c.vertex_buffer,
       Command.draw c.vertex_buffer.length 1 0 0,
       Command.endRenderPass]) := by
  cases hcs : create_swapchain vapi dims driver_images with
  | none => rw [RendererCore.new, hcs] at hnew; cases hnew
  | some p =>
    obtain ⟨sc, imgs⟩ := p
    rw [RendererCore.new, hcs] at hnew
    cases hnew
    exact ⟨by simp [get_command_buffers, get_framebuffers], rfl⟩

/-- C7 witness: the claim instantiated at `conn0` with the source's initial
dimensions, where construction succeeds and yields `core0`. -/
theorem C7_command_buffer_structure_witness :
    RendererCore.new conn0 (1024, 1024) [⟨0⟩] = some core0 ∧
    (core0.command_buffers.length = core0.framebuffers.length ∧
      core0.command_buffers = core0.framebuffers.map (fun framebuffer =>
        [Command.beginRenderPass [some (1/10, 1/10, 1/10, 1)] framebuffer,
         Command.bindPipelineGraphics core0.pipeline,
         Command.bindDescriptorSets 0 [get_mvp_descriptor_set (get_mvp_buffer core0.viewport)],
         Command.bindVertexBuffers 0 core0.vertex_buffer,
         Command.draw core0.vertex_buffer.length 1 0 0,
         Command.endRenderPass])) :=
  ⟨rfl, C7_command_buffer_structure conn0 (1024, 1024) [⟨0⟩] core0 rfl⟩

/-- For u32 values up to `2 ^ 24` the `as f32` cast is exact. -/
theorem u32ToF32_eq_of_le (n : Nat) (h : n ≤ 2 ^ 24) : u32ToF32 n = n := by
  have hstep : f32step n = 1 := by rw [f32step, if_pos h]
  rw [u32ToF32, hstep, roundHalfEven]
  simp [Nat.mod_one]

/-- C1 (corrected): for w, h > 0 (u32 values), after `RendererCore::recreate`
returns, the number of pre-recorded command buffers equals the number of
swapchain images, and the viewport extent equals the `as f32` casts of
(w, h) — which equal (w, h) exactly whenever w, h ≤ 2 ^ 24, but round for
larger u32 dimensions. -/
theorem C1_recreate_invariant_amended (core : RendererCore) (w h : Nat)
    (driver_images : List Image) (core' : RendererCore)
    (_hw : 0 < w) (_hh : 0 < h) (_hw32 : w < 2 ^ 32) (_hh32 : h < 2 ^ 32)
    (hrec : core.recreate (w, h) (some driver_images) = .ok core') :
    core'.command_buffers.length = core'.images.length ∧
    core'.viewport.extent = (u32ToF32 w, u32ToF32 h) ∧
    (w ≤ 2 ^ 24 → h ≤ 2 ^ 24 → core'.viewport.extent = (w, h)) := by
  rw [RendererCore.recreate] at hrec
  cases hrec
  refine ⟨?_, rfl, ?_⟩
  · simp [get_command_buffers, get_framebuffers]
  · intro hw24 hh24
    show (u32ToF32 w, u32ToF32 h) = (w, h)
    rw [u32ToF32_eq_of_le w hw24, u32ToF32_eq_of_le h hh24]

/-- C1 witness: the amended claim instantiated at `core0`, dimensions (2, 2)
and one driver image. -/
theorem C1_recreate_invariant_amended_witness :
    (0 < 2 ∧ (2 : Nat) < 2 ^ 32 ∧
      RendererCore.recreate core0 (2, 2) (some [⟨0⟩]) = .ok core2) ∧
    (core2.command_buffers.length = core2.images.length ∧
      core2.viewport.extent = (u32ToF32 2, u32ToF32 2) ∧
      (2 ≤ 2 ^ 24 → 2 ≤ 2 ^ 24 → core2.viewport.extent = (2, 2))) :=
  ⟨⟨by decide, by decide, rfl⟩,
   C1_recreate_invariant_amended core0 2 2 [⟨0⟩] core2 (by decide) (by decide)
     (by decide) (by decide) rfl⟩

/-- C1 counterexample: recreating at the positive u32 dimensions
(2 ^ 24 + 1, 2 ^ 24 + 1) returns, but the stored viewport extent is
(2 ^ 24, 2 ^ 24) — the `as f32` cast rounds 16777217 to 16777216 — so the
extent does not equal exactly (w, h) for every w, h > 0. -/
theorem C1_counterexample_viewport_extent_rounds :
    0 < 2 ^ 24 + 1 ∧
    (RendererCore.recreate core0 (2 ^ 24 + 1, 2 ^ 24 + 1) (some [⟨0⟩])).toOption.map
        (fun c => c.viewport.extent) = some (2 ^ 24, 2 ^ 24) ∧
    ((2 ^ 24 : Nat), (2 ^ 24 : Nat)) ≠ (2 ^ 24 + 1, 2 ^ 24 + 1) := by
  refine ⟨by decide, ?_, by decide⟩
  decide

/-- C4: in every acquire-and-present cycle in which acquisition reports the
chain suboptimal, no command-buffer execution, no present and no submission
flush is issued, and the core is recreated with the current window size
before the cycle returns (whatever the driver then answers). -/
theorem C4_suboptimal_skips_submit (r : Renderer) (window_size : Dimensions)
    (image_i : Nat) (driver_recreate : Option (List Image))
    (flush : Except String FrameFuture) :
    (r.on_draw window_size (.ok image_i true) driver_recreate flush).2 =
      [DrawEvent.acquire, DrawEvent.recreateCore window_size] ∧
    (∀ j, DrawEvent.executeCommandBuffer j ∉
      (r.on_draw window_size (.ok image_i true) driver_recreate flush).2) ∧
    (∀ j, DrawEvent.present j ∉
      (r.on_draw window_size (.ok image_i true) driver_recreate flush).2) ∧
    DrawEvent.flushSubmit ∉
      (r.on_draw window_size (.ok image_i true) driver_recreate flush).2 ∧
    DrawEvent.recreateCore window_size ∈
      (r.on_draw window_size (.ok image_i true) driver_recreate flush).2 := by
  have htrace : (r.on_draw window_size (.ok image_i true) driver_recreate flush).2 =
      [DrawEvent.acquire, DrawEvent.recreateCore window_size] := by
    cases hrec : r.recreate_core window_size driver_recreate with
    | ok r' => simp [Renderer.on_draw, hrec]
    | error msg => simp [Renderer.on_draw, hrec]
  rw [htrace]
  refine ⟨rfl, ?_, ?_, ?_, ?_⟩ <;> simp

/-- C6: if the submission-and-present flush fails validation, the failure is
logged, the cycle returns with the renderer state — including the retained
in-flight marker — unchanged, and the outcome is not a panic, so the process
continues to the next redraw attempt. -/
theorem C6_flush_failure_nonfatal (r : Renderer) (window_size : Dimensions)
    (image_i : Nat) (driver_recreate : Option (List Image)) (e : String)
    (hi : image_i < r.core.command_buffers.length) :
    (r.on_draw window_size (.ok image_i false) driver_recreate (.error e)).1 = .ok r ∧
    DrawEvent.logError ("failed to flush future: " ++ e) ∈
      (r.on_draw window_size (.ok image_i false) driver_recreate (.error e)).2 := by
  refine ⟨?_, ?_⟩ <;> simp [Renderer.on_draw, hi]

/-- C6 witness: the claim instantiated at `renderer0` (whose core has one
command buffer) with acquired index 0. -/
theorem C6_flush_failure_nonfatal_witness :
    0 < renderer0.core.command_buffers.length ∧
    ((renderer0.on_draw (1024, 1024) (.ok 0 false) none (.error "oom")).1 = .ok renderer0 ∧
      DrawEvent.logError ("failed to flush future: " ++ "oom") ∈
        (renderer0.on_draw (1024, 1024) (.ok 0 false) none (.error "oom")).2) :=
  ⟨by decide, C6_flush_failure_nonfatal renderer0 (1024, 1024) 0 none "oom" (by decide)⟩

/-- C8 (corrected): a `Renderer` retains at most one in-flight completion
marker at any point (the `last_frame_future` field is a single `Option`),
and in every cycle whose submission succeeds while a previous marker is
retained, the already-completed resources of that previous marker are
reclaimed after the new frame's submission is issued — not before it, as
claimed — and before the new marker replaces the previous one. -/
theorem C8_marker_discipline_amended (r : Renderer) (window_size : Dimensions)
    (image_i : Nat) (driver_recreate : Option (List Image)) (prev fut : FrameFuture)
    (hm : r.last_frame_future = some prev)
    (hi : image_i < r.core.command_buffers.length) :
    (∀ s : Renderer, markerCount s ≤ 1) ∧
    (r.on_draw window_size (.ok image_i false) driver_recreate (.ok fut)).1 =
      .ok { r with last_frame_future := some fut } ∧
    (r.on_draw window_size (.ok image_i false) driver_recreate (.ok fut)).2 =
      [DrawEvent.acquire, DrawEvent.executeCommandBuffer image_i,
       DrawEvent.present image_i, DrawEvent.flushSubmit,
       DrawEvent.cleanupFinished, DrawEvent.retainMarker] := by
  refine ⟨?_, ?_, ?_⟩
  · intro s
    unfold markerCount
    cases s.last_frame_future <;> simp
  · simp [Renderer.on_draw, hi]
  · simp [Renderer.on_draw, hi, hm]

/-- C8 witness: the amended claim instantiated at `renderer1`, which retains
a previous marker, with a successful flush. -/
theorem C8_marker_discipline_amended_witness :
    (renderer1.last_frame_future = some ⟨0⟩ ∧
      0 < renderer1.core.command_buffers.length) ∧
    ((∀ s : Renderer, markerCount s ≤ 1) ∧
      (renderer1.on_draw (1024, 1024) (.ok 0 false) none (.ok ⟨1⟩)).1 =
        .ok { renderer1 with last_frame_future := some ⟨1⟩ } ∧
      (renderer1.on_draw (1024, 1024) (.ok 0 false) none (.ok ⟨1⟩)).2 =
        [DrawEvent.acquire, DrawEvent.executeCommandBuffer 0,
         DrawEvent.present 0, DrawEvent.flushSubmit,
         DrawEvent.cleanupFinished, DrawEvent.retainMarker]) :=
  ⟨⟨rfl, by decide⟩,
   C8_marker_discipline_amended renderer1 (1024, 1024) 0 none ⟨0⟩ ⟨1⟩ rfl (by decide)⟩

/-- C8 counterexample: in a concrete successful cycle of `renderer1` the
reclaim of the previously retained marker occurs at position 4 of the event
trace, after the submission flush at position 3 — so the previous marker's
resources are not reclaimed before the new frame's submission is issued, as
the claim states. -/
theorem C8_counterexample_reclaim_after_submit :
    (renderer1.on_draw (1024, 1024) (.ok 0 false) none (.ok ⟨1⟩)).2.indexOf
        DrawEvent.cleanupFinished = 4 ∧
    (renderer1.on_draw (1024, 1024) (.ok 0 false) none (.ok ⟨1⟩)).2.indexOf
        DrawEvent.flushSubmit = 3 ∧
    ¬ ((renderer1.on_draw (1024, 1024) (.ok 0 false) none (.ok ⟨1⟩)).2.indexOf
          DrawEvent.cleanupFinished <
        (renderer1.on_draw (1024, 1024) (.ok 0 false) none (.ok ⟨1⟩)).2.indexOf
          DrawEvent.flushSubmit) := by
  refine ⟨?_, ?_, ?_⟩ <;> decide

/-- C10 (implicit): if image acquisition fails with any error (the
suboptimal signal is not an error in the source), the cycle panics with the
source's message and the process terminates; the event trace shows that no
recreation, execution, present or flush is attempted. -/
theorem C10_acquire_error_panics (r : Renderer) (window_size : Dimensions)
    (e : String) (driver_recreate : Option (List Image))
    (flush : Except String FrameFuture) :
    (r.on_draw window_size (.err e) driver_recreate flush).1 =
      .panic ("failed to acquire next image: " ++ e) ∧
    (r.on_draw window_size (.err e) driver_recreate flush).2 = [DrawEvent.acquire] :=
  ⟨rfl, rfl⟩

/-- Folding compute invocations preserves the buffer length. -/
theorem cs_foldl_length (l : List Nat) (buf : List Nat) :
    (l.foldl cs_invocation buf).length = buf.length := by
  induction l generalizing buf with
  | nil => rfl
  | cons a l ih =>
    rw [List.foldl_cons, ih]
    simp [cs_invocation]

/-- Indices written by no invocation of the fold keep their value. -/
theorem cs_foldl_untouched (l : List Nat) (buf : List Nat) (n : Nat)
    (h : ∀ a ∈ l, a ≠ n) :
    (l.foldl cs_invocation buf)[n]? = buf[n]? := by
  induction l generalizing buf with
  | nil => rfl
  | cons a l ih =>
    rw [List.foldl_cons, ih (cs_invocation buf a) (fun b hb => h b (List.mem_cons_of_mem a hb))]
    exact List.getElem?_set_ne (h a (List.mem_cons_self a l))

/-- After the invocations with global ids `0 .. k`, every index `n < k`
within bounds holds its old value multiplied by 12 modulo `2 ^ 32`. -/
theorem cs_foldl_touched (k : Nat) (buf : List Nat) (n : Nat)
    (hn : n < k) (hlen : n < buf.length) :
    ((List.range k).foldl cs_invocation buf)[n]? = some (buf.getD n 0 * 12 % 2 ^ 32) := by
  induction k with
  | zero => omega
  | succ k ih =>
    rw [List.range_succ, List.foldl_append, List.foldl_cons, List.foldl_nil]
    rcases Nat.lt_or_ge n k with hnk | hnk
    · rw [cs_invocation]
      rw [List.getElem?_set_ne (by omega)]
      exact ih hnk
    · have hnk' : n = k := by omega
      subst hnk'
      have huntouched : ((List.range n).foldl cs_invocation buf)[n]? = buf[n]? :=
        cs_foldl_untouched (List.range n) buf n
          (fun a ha => Nat.ne_of_lt (List.mem_range.mp ha))
      have hplen : n < ((List.range n).foldl cs_invocation buf).length := by
        rw [cs_foldl_length]; exact hlen
      rw [cs_invocation, List.getD_eq_getElem?_getD, huntouched,
        List.getElem?_set_eq_of_lt _ hplen, List.getD_eq_getElem?_getD]

/-- C9: for the compute-dispatch demo's storage buffer initialised with the
65536 unsigned 32-bit values 0, 1, ..., 65535, after the dispatch every
element at index n holds exactly 12 * n, and 12 * n stays below `2 ^ 32`, so
the unsigned arithmetic is exact and no wraparound occurs. -/
theorem C9_compute_multiplies_by_twelve (n : Nat) (hn : n < 65536) :
    (cs_dispatch data_buffer_content).getD n 0 = 12 * n ∧ 12 * n < 2 ^ 32 := by
  have hcnt : (1024 * 64 : Nat) = 65536 := rfl
  have hlen : n < data_buffer_content.length := by
    rw [data_buffer_content, List.length_range]; exact hn
  have hval : data_buffer_content.getD n 0 = n := by
    rw [data_buffer_content, List.getD_eq_getElem?_getD, List.getElem?_range hn]
    rfl
  have hlt : 12 * n < 2 ^ 32 := by omega
  have := cs_foldl_touched (1024 * 64) data_buffer_content n (by omega) hlen
  constructor
  · rw [cs_dispatch, List.getD_eq_getElem?_getD, this, hval]
    show n * 12 % 2 ^ 32 = 12 * n
    rw [Nat.mul_comm, Nat.mod_eq_of_lt hlt]
  · exact hlt

/-- C9 witness: the claim instantiated at index 5. -/
theorem C9_compute_multiplies_by_twelve_witness :
    5 < 65536 ∧
    ((cs_dispatch data_buffer_content).getD 5 0 = 12 * 5 ∧ 12 * 5 < 2 ^ 32) :=
  ⟨by decide, C9_compute_multiplies_by_twelve 5 (by decide)⟩

end Szumi
